import Mathlib

/-!
Shallow embedding of `src/uvicorn/server.py` (classes `ServerState` and
`Server`) and proofs about its event pool, date-header cache, max-requests
monitor, signal handling, and graceful-shutdown drain.

Modelling conventions:
* `asyncio.Event` objects are modelled as values carrying an allocation
  identity (`id`) and their set/unset state (`isSet`).  Allocation of a
  fresh `asyncio.Event()` is modelled by a `next_event_id` counter in
  `ServerState`.
* The Python list `_event_pool` appends and pops at the same end; it is
  modelled as a Lean list whose HEAD is that end (pop takes the head,
  append conses onto the head).
* `int(time.time())` is modelled as an explicit `current_time : Nat`
  argument; the external `email.utils.formatdate(t, usegmt=True).encode()`
  is modelled as an abstract formatting function `fmt : Nat -> String`.
* Mutating methods become state-passing functions.  Log calls become
  explicit entries in returned logs, carrying the `logging` level used.
-/

/-- Log severity used by `logger.warning` / `logger.error` / `logger.info`
calls in `server.py`. -/
inductive LogLevel where
  | info
  | warning
  | error
deriving DecidableEq, Repr

/-- Model of an `asyncio.Event` object: an allocation identity and the
set/unset state of its internal flag.  `event.clear()` is modelled by
replacing `isSet` with `false`; `event.set()` by `true`. -/
structure Event where
  id : Nat
  isSet : Bool
deriving DecidableEq, Repr

/-- Model of `ServerState.__init__` state (lines 60-76 of `server.py`):
request counter, task registry, the bounded event pool with its capacity
ceiling, the shutdown event's flag, and the date-header cache fields.
`next_event_id` is the modelling counter for fresh `asyncio.Event()`
allocations (it is not a Python attribute). -/
structure ServerState where
  total_requests : Nat
  tasks : List Nat
  _event_pool : List Event
  _event_pool_max_size : Nat
  _shutdown_event : Bool
  _cached_date : Option String
  _cached_date_time : Nat
  next_event_id : Nat
deriving DecidableEq, Repr

/-- `ServerState.__init__`: empty registries, empty pool with capacity
1000, unset shutdown event, empty date cache with `_cached_date_time = 0`. -/
def ServerState.init : ServerState :=
  { total_requests := 0
    tasks := []
    _event_pool := []
    _event_pool_max_size := 1000
    _shutdown_event := false
    _cached_date := none
    _cached_date_time := 0
    next_event_id := 0 }

/-- `ServerState.acquire_event` (lines 78-95): if the pool is non-empty,
pop one element, clear it and return it; otherwise construct and return a
brand-new `asyncio.Event()` (unset, fresh identity).  Returns the event
together with the updated state. -/
def ServerState.acquire_event (s : ServerState) : Event × ServerState :=
  match s._event_pool with
  | e :: rest => ({ e with isSet := false }, { s with _event_pool := rest })
  | [] =>
      ({ id := s.next_event_id, isSet := false },
       { s with next_event_id := s.next_event_id + 1 })

/-- `ServerState.release_event` (lines 97-106): if the pool's length is
strictly below `_event_pool_max_size`, clear the event and append it to
the pool; otherwise do nothing (the event is discarded unchanged).
Returns the updated state together with the final state of the released
event object. -/
def ServerState.release_event (s : ServerState) (event : Event) : ServerState × Event :=
  if s._event_pool.length < s._event_pool_max_size then
    ({ s with _event_pool := { event with isSet := false } :: s._event_pool },
     { event with isSet := false })
  else
    (s, event)

/-- `ServerState.get_date_header` (lines 108-125): given the current
integer epoch second `current_time` (model of `int(time.time())`) and the
formatting function `fmt` (model of `formatdate(t, usegmt=True).encode()`),
refresh the cache when the second changed or nothing was cached yet, then
return the cached value.  The third component records whether the
formatting step ran during this call. -/
def ServerState.get_date_header (fmt : Nat → String) (current_time : Nat)
    (s : ServerState) : Option String × ServerState × Bool :=
  if current_time ≠ s._cached_date_time ∨ s._cached_date = none then
    let s' := { s with
      _cached_date := some (fmt current_time)
      _cached_date_time := current_time }
    (s'._cached_date, s', true)
  else
    (s._cached_date, s, false)

/-- Unix interrupt signal number (`signal.SIGINT`, sent by Ctrl+C). -/
def SIGINT : Nat := 2

/-- Unix termination signal number (`signal.SIGTERM`). -/
def SIGTERM : Nat := 15

/-- Windows break signal number (`signal.SIGBREAK`). -/
def SIGBREAK : Nat := 21

/-- Model of the `Server` object's mutable fields used by the claims:
its `ServerState`, the lifecycle flags, and the ordered log of captured
signal numbers (lines 129-138). -/
structure Server where
  server_state : ServerState
  started : Bool
  should_exit : Bool
  force_exit : Bool
  _captured_signals : List Nat
deriving DecidableEq, Repr

/-- `Server.__init__` flag state: fresh `ServerState`, all flags false,
no captured signals. -/
def Server.init : Server :=
  { server_state := ServerState.init
    started := false
    should_exit := false
    force_exit := false
    _captured_signals := [] }

/-- `Server.handle_exit` (lines 511-520): append `sig` to
`_captured_signals`; if already exiting and `sig` is SIGINT, set
`force_exit`, otherwise set `should_exit`; finally set the shared
shutdown event.  (The `hasattr` guards on line 519 always hold in our
model, where `server_state` and its `_shutdown_event` always exist.) -/
def Server.handle_exit (srv : Server) (sig : Nat) : Server :=
  let srv1 := { srv with _captured_signals := srv._captured_signals ++ [sig] }
  let srv2 :=
    if srv1.should_exit && sig == SIGINT then
      { srv1 with force_exit := true }
    else
      { srv1 with should_exit := true }
  { srv2 with server_state := { srv2.server_state with _shutdown_event := true } }

/-- Sequential delivery of a list of OS signals to `handle_exit`. -/
def Server.runHandleExit (srv : Server) : List Nat → Server
  | [] => srv
  | sig :: rest => (srv.handle_exit sig).runHandleExit rest

/-- Decides whether, along the run of `handle_exit` over `sigs`, some call
receives SIGINT at a moment when `should_exit` is already true (the only
condition under which `handle_exit` sets `force_exit`). -/
def Server.anyForcingCall (srv : Server) : List Nat → Bool
  | [] => false
  | sig :: rest =>
      (srv.should_exit && sig == SIGINT) || (srv.handle_exit sig).anyForcingCall rest

/-- One iteration body of `Server._check_max_requests` (lines 418-437),
entered with the loop guard `not self.should_exit` already passed and
`limit` the configured `limit_max_requests`.  If the request count has
reached the ceiling: log a warning, set `should_exit`, set the shutdown
event, and stop the loop (`true`).  Otherwise wait on the shutdown event
with a 100 ms timeout, changing no flags (the timeout branch continues
the loop, `false`).  Returns (new server, log levels emitted, loop
stopped). -/
def Server.check_max_requests_step (limit : Nat) (srv : Server) :
    Server × List LogLevel × Bool :=
  if srv.server_state.total_requests ≥ limit then
    ({ srv with
        should_exit := true
        server_state := { srv.server_state with _shutdown_event := true } },
     [LogLevel.warning], true)
  else
    (srv, [], false)

/-- Action performed during the exit path of `Server.capture_signals`
(lines 502-509): restoring a previously installed handler for a signal,
or re-raising a captured signal via `signal.raise_signal`. -/
inductive SignalAction where
  | restore (sig : Nat)
  | raiseSignal (sig : Nat)
deriving DecidableEq, Repr

/-- Whether a `SignalAction` is a handler restoration. -/
def SignalAction.isRestore : SignalAction → Bool
  | .restore _ => true
  | .raiseSignal _ => false

/-- Exit path of the `Server.capture_signals` context manager
(lines 502-509): first the `finally` block restores the previous handler
of every signal in `handled` (the keys of `original_handlers`, i.e.
`HANDLED_SIGNALS`, in order), then every captured signal is re-raised in
`reversed(self._captured_signals)` order.  Modelled as the ordered trace
of those actions. -/
def Server.capture_signals_cleanup (srv : Server) (handled : List Nat) :
    List SignalAction :=
  handled.map SignalAction.restore
    ++ (srv._captured_signals.reverse.map SignalAction.raiseSignal)

/-- Cancellation message used by `Server.shutdown` (line 467). -/
def task_cancel_msg : String := "Task cancelled, timeout graceful shutdown exceeded"

/-- Observable outcome of the drain phase of `Server.shutdown`:
which tasks were cancelled (with the cancellation message), the log
entries emitted (level and the task count placed in the message), and
whether `lifespan.shutdown()` was invoked. -/
structure ShutdownDrainResult where
  cancelled : List (Nat × String)
  logs : List (LogLevel × Nat)
  lifespan_shutdown_called : Bool
deriving DecidableEq, Repr

/-- Drain phase of `Server.shutdown` (lines 456-471).  The input
`drain_result` is the outcome of
`asyncio.wait_for(self._wait_tasks_to_complete(), timeout=...)`:
`.ok ()` when the drain finished within `timeout_graceful_shutdown`,
`.error ()` when `asyncio.TimeoutError` was raised.  The `try/except`
handles the timeout: it logs the number of still-registered tasks at
ERROR level and cancels each of them with `task_cancel_msg`.  In both
branches execution falls through to the final step, which calls
`lifespan.shutdown()` unless `force_exit` is set; no exception escapes,
so the result is always `.ok`. -/
def Server.shutdown_drain (srv : Server) (drain_result : Except Unit Unit) :
    Except Unit ShutdownDrainResult :=
  match drain_result with
  | .ok () =>
      .ok { cancelled := []
            logs := []
            lifespan_shutdown_called := !srv.force_exit }
  | .error () =>
      .ok { cancelled := srv.server_state.tasks.map (fun t => (t, task_cancel_msg))
            logs := [(LogLevel.error, srv.server_state.tasks.length)]
            lifespan_shutdown_called := !srv.force_exit }

/-- An operation on the event pool: one `acquire_event` call (its result
discarded) or one `release_event` call with a given event object. -/
inductive PoolOp where
  | acquire
  | release (e : Event)
deriving DecidableEq, Repr

/-- Run a finite sequence of pool operations on a `ServerState`. -/
def ServerState.runOps (s : ServerState) : List PoolOp → ServerState
  | [] => s
  | PoolOp.acquire :: ops => (s.acquire_event).2.runOps ops
  | PoolOp.release e :: ops => (s.release_event e).1.runOps ops

/-- Acquire `n` events sequentially, returning them in acquisition order
together with the final state. -/
def ServerState.acquireN (s : ServerState) : Nat → List Event × ServerState
  | 0 => ([], s)
  | n + 1 =>
      let r := s.acquire_event
      let rest := r.2.acquireN n
      (r.1 :: rest.1, rest.2)

/-- Release a list of events sequentially. -/
def ServerState.releaseAll (s : ServerState) : List Event → ServerState
  | [] => s
  | e :: es => (s.release_event e).1.releaseAll es

/-- End-to-end scenario C of the spec: starting from a fresh
`ServerState`, acquire 1500 signals sequentially, then release all 1500. -/
def scenarioC : ServerState :=
  let r := ServerState.init.acquireN 1500
  r.2.releaseAll r.1

/-! ### Basic lemmas about the pool operations -/

/-- `acquire_event` never changes the capacity ceiling. -/
theorem acquire_event_max (s : ServerState) :
    (s.acquire_event).2._event_pool_max_size = s._event_pool_max_size := by
  cases h : s._event_pool <;> simp [ServerState.acquire_event, h]

/-- `acquire_event` never grows the pool. -/
theorem acquire_event_len_le (s : ServerState) :
    (s.acquire_event).2._event_pool.length ≤ s._event_pool.length := by
  cases h : s._event_pool <;> simp [ServerState.acquire_event, h]

/-- `release_event` never changes the capacity ceiling. -/
theorem release_event_max (s : ServerState) (e : Event) :
    (s.release_event e).1._event_pool_max_size = s._event_pool_max_size := by
  by_cases h : s._event_pool.length < s._event_pool_max_size <;>
    simp [ServerState.release_event, h]

/-- `release_event` keeps the pool within the capacity ceiling. -/
theorem release_event_len_le (s : ServerState) (e : Event)
    (h : s._event_pool.length ≤ s._event_pool_max_size) :
    (s.release_event e).1._event_pool.length ≤ s._event_pool_max_size := by
  by_cases hlt : s._event_pool.length < s._event_pool_max_size <;>
    simp [ServerState.release_event, hlt] <;> omega

/-- C1: every signal returned by `acquire_event` is in the unset state; if
the pool is non-empty, its top element is removed, cleared and returned;
if the pool is empty, a brand-new unset signal (fresh identity) is
constructed and returned. -/
theorem acquire_event_returns_unset (s : ServerState) :
    (s.acquire_event).1.isSet = false ∧
    (∀ e rest, s._event_pool = e :: rest →
      s.acquire_event = ({ e with isSet := false }, { s with _event_pool := rest })) ∧
    (s._event_pool = [] →
      s.acquire_event =
        ({ id := s.next_event_id, isSet := false },
         { s with next_event_id := s.next_event_id + 1 })) := by
  refine ⟨?_, ?_, ?_⟩
  · cases h : s._event_pool <;> simp [ServerState.acquire_event, h]
  · intro e rest h
    simp [ServerState.acquire_event, h]
  · intro h
    simp [ServerState.acquire_event, h]

/-- Witness for C1: concrete applications at an empty pool and at a pool
holding one set event. -/
theorem acquire_event_returns_unset_witness :
    (ServerState.init.acquire_event =
      ({ id := 0, isSet := false }, { ServerState.init with next_event_id := 1 })) ∧
    (({ ServerState.init with
          _event_pool := [{ id := 7, isSet := true }] } : ServerState).acquire_event =
      ({ id := 7, isSet := false }, ServerState.init)) := by
  constructor
  · exact (acquire_event_returns_unset ServerState.init).2.2 rfl
  · have h := (acquire_event_returns_unset
      ({ ServerState.init with _event_pool := [{ id := 7, isSet := true }] })).2.1
      { id := 7, isSet := true } [] rfl
    simpa using h

/-- Concrete server state whose event pool is exactly at the capacity
ceiling (1000 pooled events). -/
def fullPoolState : ServerState :=
  { ServerState.init with
      _event_pool := List.replicate 1000 { id := 0, isSet := false } }

/-- C2 counterexample: releasing a set signal into a pool at capacity
leaves the signal's flag set — the clearing step does NOT happen when the
signal is discarded, contradicting the claim that clearing happens on
every call. -/
theorem release_event_at_capacity_keeps_set :
    (fullPoolState.release_event { id := 5, isSet := true }).2.isSet = true ∧
    (fullPoolState.release_event { id := 5, isSet := true }).1 = fullPoolState := by
  have hlen : ¬ fullPoolState._event_pool.length < fullPoolState._event_pool_max_size := by
    simp only [fullPoolState, ServerState.init, List.length_replicate]
    omega
  constructor <;> simp [ServerState.release_event, hlen]

/-- C2 (amended): `release_event` appends iff the pool is strictly below
the capacity ceiling; the released signal is cleared exactly when it is
appended, and is discarded unchanged (not cleared) when the pool is at
capacity.  The call is a total function: it never blocks and never
raises. -/
theorem release_event_spec (s : ServerState) (e : Event) :
    (s._event_pool.length < s._event_pool_max_size →
      (s.release_event e).1._event_pool = { e with isSet := false } :: s._event_pool ∧
      (s.release_event e).2 = { e with isSet := false }) ∧
    (¬ s._event_pool.length < s._event_pool_max_size →
      (s.release_event e).1 = s ∧
      (s.release_event e).2 = e) := by
  by_cases h : s._event_pool.length < s._event_pool_max_size <;>
    simp [ServerState.release_event, h]

/-- Witness for C2 (amended): concrete applications below capacity and at
capacity. -/
theorem release_event_spec_witness :
    ((ServerState.init.release_event { id := 3, isSet := true }).1._event_pool
        = [{ id := 3, isSet := false }] ∧
     (ServerState.init.release_event { id := 3, isSet := true }).2
        = { id := 3, isSet := false }) ∧
    ((fullPoolState.release_event { id := 3, isSet := true }).1 = fullPoolState ∧
     (fullPoolState.release_event { id := 3, isSet := true }).2
        = { id := 3, isSet := true }) := by
  constructor
  · have h := (release_event_spec ServerState.init { id := 3, isSet := true }).1 (by decide)
    simpa [ServerState.init] using h
  · exact (release_event_spec fullPoolState { id := 3, isSet := true }).2
      (by simp only [fullPoolState, ServerState.init, List.length_replicate]; omega)

/-- C10: the pool does not deduplicate.  Releasing the same event object
twice while the pool stays below capacity grows the pool by two, places
the (cleared) object in the two top slots, and two subsequent acquires
each return that identical object. -/
theorem release_event_no_dedup (s : ServerState) (e : Event)
    (h : s._event_pool.length + 1 < s._event_pool_max_size) :
    ((s.release_event e).1.release_event e).1._event_pool.length
        = s._event_pool.length + 2 ∧
    ((s.release_event e).1.release_event e).1._event_pool
        = { e with isSet := false } :: { e with isSet := false } :: s._event_pool ∧
    ((((s.release_event e).1.release_event e).1.acquire_event).1.id = e.id ∧
     (((((s.release_event e).1.release_event e).1.acquire_event).2.acquire_event).1.id
        = e.id)) := by
  have h1 : s._event_pool.length < s._event_pool_max_size := by omega
  have e1 : (s.release_event e).1
      = { s with _event_pool := { e with isSet := false } :: s._event_pool } := by
    simp [ServerState.release_event, h1]
  have e2 : (({ s with _event_pool := { e with isSet := false } :: s._event_pool }
      : ServerState).release_event e).1
      = { s with _event_pool :=
            { e with isSet := false } :: { e with isSet := false } :: s._event_pool } := by
    simp [ServerState.release_event, h]
  rw [e1, e2]
  refine ⟨by simp, rfl, ?_, ?_⟩ <;> simp [ServerState.acquire_event]

/-- Witness for C10: releasing the same set event twice into a fresh
(empty) pool. -/
theorem release_event_no_dedup_witness :
    ((ServerState.init.release_event { id := 9, isSet := true }).1.release_event
        { id := 9, isSet := true }).1._event_pool
      = [{ id := 9, isSet := false }, { id := 9, isSet := false }] ∧
    ((((ServerState.init.release_event { id := 9, isSet := true }).1.release_event
        { id := 9, isSet := true }).1.acquire_event).1.id = 9 ∧
     (((((ServerState.init.release_event { id := 9, isSet := true }).1.release_event
        { id := 9, isSet := true }).1.acquire_event).2.acquire_event).1.id = 9)) := by
  have h := release_event_no_dedup ServerState.init { id := 9, isSet := true } (by decide)
  exact ⟨by simpa [ServerState.init] using h.2.1, h.2.2.1, h.2.2.2⟩

/-! ### Pool-size invariant and scenario C -/

/-- Running pool operations never changes the capacity ceiling. -/
theorem runOps_max (ops : List PoolOp) (s : ServerState) :
    (s.runOps ops)._event_pool_max_size = s._event_pool_max_size := by
  induction ops generalizing s with
  | nil => rfl
  | cons op ops ih =>
    cases op with
    | acquire =>
        show ((s.acquire_event).2.runOps ops)._event_pool_max_size = _
        rw [ih, acquire_event_max]
    | release e =>
        show (((s.release_event e).1).runOps ops)._event_pool_max_size = _
        rw [ih, release_event_max]

/-- The pool-size invariant: if the pool is within its capacity ceiling,
it stays within it under any finite sequence of operations. -/
theorem runOps_length_le (ops : List PoolOp) (s : ServerState)
    (h : s._event_pool.length ≤ s._event_pool_max_size) :
    (s.runOps ops)._event_pool.length ≤ s._event_pool_max_size := by
  induction ops generalizing s with
  | nil => exact h
  | cons op ops ih =>
    cases op with
    | acquire =>
        show ((s.acquire_event).2.runOps ops)._event_pool.length ≤ _
        have h' : (s.acquire_event).2._event_pool.length
            ≤ (s.acquire_event).2._event_pool_max_size := by
          rw [acquire_event_max]
          exact le_trans (acquire_event_len_le s) h
        have := ih _ h'
        rwa [acquire_event_max] at this
    | release e =>
        show (((s.release_event e).1).runOps ops)._event_pool.length ≤ _
        have h' : (s.release_event e).1._event_pool.length
            ≤ (s.release_event e).1._event_pool_max_size := by
          rw [release_event_max]
          exact release_event_len_le s e h
        have := ih _ h'
        rwa [release_event_max] at this

/-- Acquiring from a state with an empty pool leaves the pool empty,
keeps the ceiling, and yields exactly `n` events. -/
theorem acquireN_empty_pool (n : Nat) (s : ServerState) (h : s._event_pool = []) :
    (s.acquireN n).2._event_pool = [] ∧
    (s.acquireN n).2._event_pool_max_size = s._event_pool_max_size ∧
    (s.acquireN n).1.length = n := by
  induction n generalizing s with
  | zero => simp [ServerState.acquireN, h]
  | succ n ih =>
    have hs : s.acquire_event
        = ({ id := s.next_event_id, isSet := false },
           { s with next_event_id := s.next_event_id + 1 }) := by
      simp [ServerState.acquire_event, h]
    have := ih { s with next_event_id := s.next_event_id + 1 } (by simpa using h)
    simp [ServerState.acquireN, hs, this.1, this.2.1, this.2.2]

/-- Releasing a list of events into a pool within capacity brings the
pool's length to the minimum of the ceiling and (current length + number
released). -/
theorem releaseAll_length (es : List Event) (s : ServerState)
    (h : s._event_pool.length ≤ s._event_pool_max_size) :
    (s.releaseAll es)._event_pool.length
      = min s._event_pool_max_size (s._event_pool.length + es.length) := by
  induction es generalizing s with
  | nil =>
    show s._event_pool.length = _
    simp only [List.length_nil, Nat.add_zero]
    omega
  | cons e es ih =>
    show ((s.release_event e).1.releaseAll es)._event_pool.length = _
    by_cases hlt : s._event_pool.length < s._event_pool_max_size
    · have hrel : (s.release_event e).1
          = { s with _event_pool := { e with isSet := false } :: s._event_pool } := by
        simp [ServerState.release_event, hlt]
      rw [hrel, ih _ (by simpa using hlt)]
      simp only [List.length_cons]
      omega
    · have hrel : (s.release_event e).1 = s := by
        simp [ServerState.release_event, hlt]
      rw [hrel, ih _ h]
      simp only [List.length_cons]
      omega

/-- C3: starting from a fresh `ServerState`, the pool's size never
exceeds the capacity ceiling (1000) under any finite sequence of
acquire/release operations; and scenario C (sequentially acquiring and
then releasing 1500 signals) settles the pool size at exactly 1000. -/
theorem event_pool_bounded_and_scenario_c :
    (∀ ops : List PoolOp,
      (ServerState.init.runOps ops)._event_pool.length ≤ 1000) ∧
    scenarioC._event_pool.length = 1000 := by
  constructor
  · intro ops
    have h := runOps_length_le ops ServerState.init (by simp [ServerState.init])
    simpa [ServerState.init] using h
  · have ha := acquireN_empty_pool 1500 ServerState.init rfl
    show ((ServerState.init.acquireN 1500).2.releaseAll
        (ServerState.init.acquireN 1500).1)._event_pool.length = 1000
    rw [releaseAll_length _ _ (by rw [ha.1]; exact Nat.zero_le _)]
    rw [ha.1, ha.2.1, ha.2.2]
    simp [ServerState.init]

/-- C4: a second call to `get_date_header` during the same epoch second
returns the identical value, does not run the formatting step, and leaves
the cache state unchanged (hence any number of further calls in that
second also reformat nothing); a call at an epoch second different from
the cached one reformats and stores the fresh value together with the new
second. -/
theorem get_date_header_cache (fmt : Nat → String) (s : ServerState) (t : Nat) :
    (((s.get_date_header fmt t).2.1.get_date_header fmt t).1
        = (s.get_date_header fmt t).1 ∧
     ((s.get_date_header fmt t).2.1.get_date_header fmt t).2.2 = false ∧
     ((s.get_date_header fmt t).2.1.get_date_header fmt t).2.1
        = (s.get_date_header fmt t).2.1) ∧
    (∀ t' : Nat, t' ≠ s._cached_date_time →
      (s.get_date_header fmt t').1 = some (fmt t') ∧
      (s.get_date_header fmt t').2.1._cached_date = some (fmt t') ∧
      (s.get_date_header fmt t').2.1._cached_date_time = t' ∧
      (s.get_date_header fmt t').2.2 = true) := by
  constructor
  · by_cases hc : t ≠ s._cached_date_time ∨ s._cached_date = none
    · simp [ServerState.get_date_header, hc]
    · push_neg at hc
      simp [ServerState.get_date_header, hc.1, hc.2]
  · intro t' ht'
    simp [ServerState.get_date_header, ht']

/-- Witness for C4: with `toString` as the formatter and a fresh state,
the second call at second 5 reformats nothing, and a call at second 7
(different from the cached second) reformats. -/
theorem get_date_header_cache_witness :
    ((ServerState.init.get_date_header toString 5).2.1.get_date_header toString 5).2.2
        = false ∧
    ((ServerState.init.get_date_header toString 5).2.1.get_date_header toString 5).1
        = (ServerState.init.get_date_header toString 5).1 ∧
    (ServerState.init.get_date_header toString 7).2.2 = true ∧
    (ServerState.init.get_date_header toString 7).1 = some (toString 7) := by
  have h := get_date_header_cache toString ServerState.init 5
  have h7 := (get_date_header_cache toString ServerState.init 7).2 7 (by decide)
  exact ⟨h.1.2.1, h.1.1, h7.2.2.2, h7.1⟩

/-- C5: in an iteration of the max-requests monitor loop, if
`total_requests` has reached the configured ceiling then the step sets
`should_exit` and the shutdown event and logs exactly one warning; if it
is strictly below the ceiling the step changes nothing (in particular it
sets neither flag) and logs nothing. -/
theorem check_max_requests_step_spec (limit : Nat) (srv : Server) :
    (srv.server_state.total_requests ≥ limit →
      (Server.check_max_requests_step limit srv).1.should_exit = true ∧
      (Server.check_max_requests_step limit srv).1.server_state._shutdown_event = true ∧
      (Server.check_max_requests_step limit srv).2.1 = [LogLevel.warning] ∧
      (Server.check_max_requests_step limit srv).2.2 = true) ∧
    (srv.server_state.total_requests < limit →
      (Server.check_max_requests_step limit srv).1 = srv ∧
      (Server.check_max_requests_step limit srv).2.1 = [] ∧
      (Server.check_max_requests_step limit srv).2.2 = false) := by
  by_cases h : srv.server_state.total_requests ≥ limit
  · refine ⟨fun _ => ?_, fun hlt => absurd h (by omega)⟩
    simp [Server.check_max_requests_step, h]
  · refine ⟨fun hge => absurd hge h, fun _ => ?_⟩
    simp [Server.check_max_requests_step, h]

/-- Witness for C5: with ceiling 5, a server that has served 5 requests
triggers the monitor, and a server that has served 4 does not. -/
theorem check_max_requests_step_spec_witness :
    ((Server.check_max_requests_step 5
        { Server.init with
            server_state := { ServerState.init with total_requests := 5 } }).1.should_exit
      = true ∧
     (Server.check_max_requests_step 5
        { Server.init with
            server_state := { ServerState.init with total_requests := 5 }
        }).1.server_state._shutdown_event = true) ∧
    (Server.check_max_requests_step 5
        { Server.init with
            server_state := { ServerState.init with total_requests := 4 } }).1
      = { Server.init with
            server_state := { ServerState.init with total_requests := 4 } } := by
  have h5 := (check_max_requests_step_spec 5
    { Server.init with
        server_state := { ServerState.init with total_requests := 5 } }).1 (by decide)
  have h4 := (check_max_requests_step_spec 5
    { Server.init with
        server_state := { ServerState.init with total_requests := 4 } }).2 (by decide)
  exact ⟨⟨h5.1, h5.2.1⟩, h4.1⟩

/-- C6: every call to `handle_exit` appends the signal number to the
ordered capture log, leaves `should_exit` true afterwards, additionally
sets `force_exit` when `should_exit` was already true and the signal is
SIGINT, and sets the shared shutdown event. -/
theorem handle_exit_spec (srv : Server) (sig : Nat) :
    (srv.handle_exit sig)._captured_signals = srv._captured_signals ++ [sig] ∧
    (srv.handle_exit sig).should_exit = true ∧
    (srv.should_exit = true → sig = SIGINT → (srv.handle_exit sig).force_exit = true) ∧
    (srv.handle_exit sig).server_state._shutdown_event = true := by
  by_cases h : srv.should_exit && sig == SIGINT
  · have hse : srv.should_exit = true := by
      rcases Bool.and_eq_true_iff.mp h with ⟨h1, _⟩
      exact h1
    have hsig : sig = SIGINT := by
      rcases Bool.and_eq_true_iff.mp h with ⟨_, h2⟩
      exact eq_of_beq h2
    refine ⟨?_, ?_, fun _ _ => ?_, ?_⟩ <;> simp [Server.handle_exit, hse, hsig]
  · refine ⟨?_, ?_, fun hse hsig => ?_, ?_⟩
    · simp [Server.handle_exit, h]
    · simp [Server.handle_exit, h]
    · exact absurd (by simp [hse, hsig]) h
    · simp [Server.handle_exit, h]

/-- Witness for C6: a second SIGINT delivered while already exiting sets
`force_exit`, with the capture log and shutdown event updated. -/
theorem handle_exit_spec_witness :
    (({ Server.init with should_exit := true } : Server).handle_exit
        SIGINT)._captured_signals = [SIGINT] ∧
    (({ Server.init with should_exit := true } : Server).handle_exit
        SIGINT).should_exit = true ∧
    (({ Server.init with should_exit := true } : Server).handle_exit
        SIGINT).force_exit = true ∧
    (({ Server.init with should_exit := true } : Server).handle_exit
        SIGINT).server_state._shutdown_event = true := by
  have h := handle_exit_spec ({ Server.init with should_exit := true }) SIGINT
  exact ⟨by simpa [Server.init] using h.1, h.2.1, h.2.2.1 rfl rfl, h.2.2.2⟩

/-! ### Helper lemmas for the signal-cleanup trace -/

/-- Restoration actions all satisfy `isRestore`. -/
theorem filter_isRestore_map_restore (l : List Nat) :
    (l.map SignalAction.restore).filter SignalAction.isRestore
      = l.map SignalAction.restore := by
  induction l with
  | nil => rfl
  | cons a l ih => simp [SignalAction.isRestore, ih]

/-- Re-raise actions never satisfy `isRestore`. -/
theorem filter_isRestore_map_raise (l : List Nat) :
    (l.map SignalAction.raiseSignal).filter SignalAction.isRestore = [] := by
  induction l with
  | nil => rfl
  | cons a l ih => simp [SignalAction.isRestore, ih]

/-- Restoration actions are dropped by the complement filter. -/
theorem filter_not_isRestore_map_restore (l : List Nat) :
    (l.map SignalAction.restore).filter (fun a => ! a.isRestore) = [] := by
  induction l with
  | nil => rfl
  | cons a l ih => simp [SignalAction.isRestore, ih]

/-- Re-raise actions all survive the complement filter. -/
theorem filter_not_isRestore_map_raise (l : List Nat) :
    (l.map SignalAction.raiseSignal).filter (fun a => ! a.isRestore)
      = l.map SignalAction.raiseSignal := by
  induction l with
  | nil => rfl
  | cons a l ih => simp [SignalAction.isRestore, ih]

/-- C7: on leaving the served state, the cleanup trace restores exactly
the previously installed handlers, re-raises exactly the captured signals
in reverse order of capture (each capture re-raised once), and performs
every restoration before any re-raise. -/
theorem capture_signals_cleanup_spec (srv : Server) (handled : List Nat) :
    ((srv.capture_signals_cleanup handled).filter SignalAction.isRestore
        = handled.map SignalAction.restore) ∧
    ((srv.capture_signals_cleanup handled).filter (fun a => ! a.isRestore)
        = srv._captured_signals.reverse.map SignalAction.raiseSignal) ∧
    (srv.capture_signals_cleanup handled
        = (srv.capture_signals_cleanup handled).filter SignalAction.isRestore
          ++ (srv.capture_signals_cleanup handled).filter (fun a => ! a.isRestore)) := by
  have h1 := filter_isRestore_map_restore handled
  have h2 := filter_isRestore_map_raise srv._captured_signals.reverse
  have h3 := filter_not_isRestore_map_restore handled
  have h4 := filter_not_isRestore_map_raise srv._captured_signals.reverse
  refine ⟨?_, ?_, ?_⟩ <;>
    simp only [Server.capture_signals_cleanup, List.filter_append, h1, h2, h3, h4,
      List.append_nil, List.nil_append]

/-- Concrete server used for the C8 drain-timeout statements: three
registered tasks, no force-exit request. -/
def drainTimeoutSrv : Server :=
  { Server.init with server_state := { ServerState.init with tasks := [0, 1, 2] } }

/-- C8 counterexample: when the drain deadline elapses, the count of
force-cancelled tasks is logged at ERROR level — not at WARNING level as
the claim states. -/
theorem shutdown_drain_logs_error_level :
    (drainTimeoutSrv.shutdown_drain (Except.error ())
      = Except.ok
          { cancelled := [(0, task_cancel_msg), (1, task_cancel_msg), (2, task_cancel_msg)]
            logs := [(LogLevel.error, 3)]
            lifespan_shutdown_called := true }) ∧
    LogLevel.error ≠ LogLevel.warning := by
  constructor
  · rfl
  · decide

/-- C8 (amended): the drain-deadline timeout never propagates out of the
shutdown procedure (the result is always `.ok`); when the deadline
elapses, every registered task is cancelled with the explanatory message
and the number of force-cancelled tasks is logged — at ERROR level — and
the hosted-application shutdown handshake still runs unless `force_exit`
was requested. -/
theorem shutdown_drain_spec (srv : Server) (dr : Except Unit Unit) :
    (∃ r, srv.shutdown_drain dr = Except.ok r) ∧
    (dr = Except.error () →
      srv.shutdown_drain dr
        = Except.ok
            { cancelled := srv.server_state.tasks.map (fun t => (t, task_cancel_msg))
              logs := [(LogLevel.error, srv.server_state.tasks.length)]
              lifespan_shutdown_called := !srv.force_exit }) ∧
    (dr = Except.ok () →
      srv.shutdown_drain dr
        = Except.ok
            { cancelled := []
              logs := []
              lifespan_shutdown_called := !srv.force_exit }) := by
  cases dr with
  | ok u =>
      cases u
      refine ⟨⟨_, rfl⟩, fun hc => ?_, fun _ => rfl⟩
      exact Except.noConfusion hc
  | error u =>
      cases u
      refine ⟨⟨_, rfl⟩, fun _ => rfl, fun hc => ?_⟩
      exact Except.noConfusion hc

/-- Witness for C8 (amended): concrete drain timeout with three tasks. -/
theorem shutdown_drain_spec_witness :
    drainTimeoutSrv.shutdown_drain (Except.error ())
      = Except.ok
          { cancelled := [(0, task_cancel_msg), (1, task_cancel_msg), (2, task_cancel_msg)]
            logs := [(LogLevel.error, 3)]
            lifespan_shutdown_called := true } := by
  have h := (shutdown_drain_spec drainTimeoutSrv (Except.error ())).2.1 rfl
  simpa [drainTimeoutSrv, ServerState.init, Server.init] using h

/-- C9: `force_exit` is set only by a SIGINT delivered while
`should_exit` is already true — along any sequence of delivered signals
with no such forcing call, `force_exit` stays false. -/
theorem force_exit_only_by_forcing_sigint (srv : Server) (sigs : List Nat)
    (hf : srv.force_exit = false) (hn : srv.anyForcingCall sigs = false) :
    (srv.runHandleExit sigs).force_exit = false := by
  induction sigs generalizing srv with
  | nil => exact hf
  | cons sig rest ih =>
    have hsplit : (srv.should_exit && sig == SIGINT) = false ∧
        (srv.handle_exit sig).anyForcingCall rest = false := by
      have : ((srv.should_exit && sig == SIGINT)
          || (srv.handle_exit sig).anyForcingCall rest) = false := hn
      exact Bool.or_eq_false_iff.mp this
    have hf' : (srv.handle_exit sig).force_exit = false := by
      simp [Server.handle_exit, hsplit.1, hf]
    exact ih _ hf' hsplit.2

/-- Witness for C9: four termination/break signals (no SIGINT) leave
`force_exit` false. -/
theorem force_exit_only_by_forcing_sigint_witness :
    (Server.init.runHandleExit [SIGTERM, SIGTERM, SIGBREAK, SIGTERM]).force_exit
      = false :=
  force_exit_only_by_forcing_sigint Server.init [SIGTERM, SIGTERM, SIGBREAK, SIGTERM]
    (by decide) (by decide)
